import Mathlib

/-!
Verification development for the event-driven indexing pipeline and the
search query service of the thumanya_cms repository.

The indexing consumer (src/discovery/indexer/consumer.py) is embedded as a
state-transition system: the index state is a map from document id to an
optional payload, and the dispatch loop of run_consumer is a fold of the
per-message dispatch over the list of consumed change events.  The search
view (src/discovery/views.py, SearchView.get) is embedded as a function from
a request (all HTTP GET parameters, each an optional string) and an engine
oracle to an HTTP result together with the list of search bodies sent to the
engine.  The index schema operations (create_index_if_not_exists in the
consumer, and the create_opensearch_index management command) are embedded as
transitions on the optional mapping of the single index.
-/

namespace ThumanyaCMS

/-- ChangeEvent mirrors the JSON message consumed from the topic:
op tag, program id, and payload (payload type abstract). -/
structure ChangeEvent (α : Type) where
  op : String
  program_id : Nat
  payload : α

/-- Index state: document id to stored payload, none when absent. -/
def IndexState (α : Type) : Type := Nat → Option α

/-- Index with no documents. -/
def emptyIndex {α : Type} : IndexState α := fun _ => none

/-- Embeds handle_upsert: client.index keyed by doc id overwrites in place. -/
def handle_upsert {α : Type} (st : IndexState α) (doc_id : Nat) (payload : α) :
    IndexState α :=
  fun j => if j = doc_id then some payload else st j

/-- Embeds handle_delete: removes the document with that id; when the id is
absent the engine raises not-found, which the handler catches and logs as a
warning, leaving the state unchanged (the function below is total and maps an
absent id to an unchanged state). -/
def handle_delete {α : Type} (st : IndexState α) (doc_id : Nat) : IndexState α :=
  fun j => if j = doc_id then none else st j

/-- Embeds the per-message dispatch of run_consumer (consumer.py lines
153-162): upsert/create/update write through, delete removes, anything else
is logged as a warning and dropped. -/
def dispatch {α : Type} (st : IndexState α) (e : ChangeEvent α) : IndexState α :=
  if e.op = "upsert" ∨ e.op = "create" ∨ e.op = "update" then
    handle_upsert st e.program_id e.payload
  else if e.op = "delete" then
    handle_delete st e.program_id
  else
    st

/-- Embeds the steady-state loop of run_consumer: each consumed message is
dispatched in order. -/
def run_consumer {α : Type} (st : IndexState α) : List (ChangeEvent α) → IndexState α
  | [] => st
  | e :: es => run_consumer (dispatch st e) es

/-- The two operation kinds the consumer actually applies. -/
inductive OpKind where
  | upsertKind : OpKind
  | deleteKind : OpKind
deriving DecidableEq

/-- Classify an op tag the way dispatch does: the three upsert spellings,
delete, or unknown (none). -/
def classify (op : String) : Option OpKind :=
  if op = "upsert" ∨ op = "create" ∨ op = "update" then some OpKind.upsertKind
  else if op = "delete" then some OpKind.deleteKind
  else none

/-- Fold computing the kind of the last applied (known-op) event for a given
id, starting from a previous answer acc. -/
def lastFrom {α : Type} (i : Nat) (acc : Option OpKind) (events : List (ChangeEvent α)) :
    Option OpKind :=
  events.foldl
    (fun a e =>
      if e.program_id = i then
        match classify e.op with
        | some k => some k
        | none => a
      else a)
    acc

/-- Kind of the last applied event for a given id over a whole trace. -/
def lastApplied {α : Type} (i : Nat) (events : List (ChangeEvent α)) : Option OpKind :=
  lastFrom i none events

/-- The value stored at a fixed id after a trace, computed from the previous
value at that id alone (per-key projection of the dispatch loop). -/
def applyTrace {α : Type} (i : Nat) (v : Option α) (events : List (ChangeEvent α)) :
    Option α :=
  events.foldl
    (fun a e =>
      if e.program_id = i then
        match classify e.op with
        | some OpKind.upsertKind => some e.payload
        | some OpKind.deleteKind => none
        | none => a
      else a)
    v

/-! Index schema manager.  The engine-side index is modelled as an optional
mapping (none when the index is absent); a mapping is the list of
field-name/field-type pairs.  Transitions return the new index state together
with the list of engine actions performed. -/

/-- Engine actions performed by a schema operation. -/
inductive IndexAction where
  | deleteIndex : IndexAction
  | createIndex (mapping : List (String × String)) : IndexAction
deriving DecidableEq

/-- The field mapping hard-coded in consumer.create_index_if_not_exists
(consumer.py lines 69-84); analyzers and index settings elided. -/
def programs_mapping : List (String × String) :=
  [("id", "integer"), ("title", "text"), ("description", "text"),
   ("category", "keyword"), ("language", "keyword"), ("duration", "keyword"),
   ("publish_date", "date"), ("media_type", "keyword"),
   ("media_url", "keyword"), ("thumbnail_url", "keyword"),
   ("metadata", "object"), ("created_at", "date"), ("updated_at", "date")]

/-- Embeds consumer.create_index_if_not_exists: check existence, create with
programs_mapping only when absent, otherwise log and leave unchanged. -/
def create_index_if_not_exists (ix : Option (List (String × String))) :
    Option (List (String × String)) × List IndexAction :=
  match ix with
  | none => (some programs_mapping, [IndexAction.createIndex programs_mapping])
  | some m => (some m, [])

/-- Embeds Command.handle of the create_opensearch_index management command:
when the mapping file is missing it returns without touching the engine; when
the index already exists it deletes it and recreates it from the mapping
held in the file; otherwise it creates it from that mapping. -/
def command_handle (mapping_file : Option (List (String × String)))
    (ix : Option (List (String × String))) :
    Option (List (String × String)) × List IndexAction :=
  match mapping_file with
  | none => (ix, [])
  | some fm =>
    match ix with
    | some _ => (some fm, [IndexAction.deleteIndex, IndexAction.createIndex fm])
    | none => (some fm, [IndexAction.createIndex fm])

/-! Search query service (SearchView.get in src/discovery/views.py). -/

/-- Digit-string accumulation, most significant digit first. -/
def digitsToNat (cs : List Char) : Nat :=
  cs.foldl (fun a c => a * 10 + (c.toNat - 48)) 0

/-- Model of CPython int() on a string: strip surrounding whitespace, then an
optional sign followed by a non-empty run of decimal digits; none models the
ValueError raised on anything else (digit-grouping underscores elided). -/
def pyInt (s : String) : Option Int :=
  let cs := ((s.toList.dropWhile Char.isWhitespace).reverse.dropWhile
      Char.isWhitespace).reverse
  match cs with
  | [] => none
  | c :: rest =>
    if c = '+' then
      if rest ≠ [] ∧ rest.all Char.isDigit then some (digitsToNat rest) else none
    else if c = '-' then
      if rest ≠ [] ∧ rest.all Char.isDigit then some (-(digitsToNat rest : Int))
      else none
    else
      if (c :: rest).all Char.isDigit then some (digitsToNat (c :: rest)) else none

/-- Model of int(request.GET.get(name, dflt)): an absent parameter falls back
to the integer default, a present one is parsed from its string. -/
def parseParamInt (o : Option String) (dflt : Int) : Option Int :=
  match o with
  | none => some dflt
  | some s => pyInt s

/-- Python truthiness of request.GET.get(name): false for an absent parameter
and for the empty string. -/
def truthyOpt (o : Option String) : Bool :=
  o.getD "" ≠ ""

/-- HTTP GET parameters of a search request, each an optional string. -/
structure Request where
  q : Option String
  category : Option String
  language : Option String
  media_type : Option String
  duration_min : Option String
  duration_max : Option String
  publish_date_from : Option String
  publish_date_to : Option String
  tags : Option String
  sort_by : Option String
  sort_order : Option String
  page : Option String
  page_size : Option String
  highlight : Option String
  fuzzy : Option String
deriving DecidableEq

/-- A request with every parameter absent. -/
def emptyRequest : Request :=
  { q := none, category := none, language := none, media_type := none,
    duration_min := none, duration_max := none, publish_date_from := none,
    publish_date_to := none, tags := none, sort_by := none, sort_order := none,
    page := none, page_size := none, highlight := none, fuzzy := none }

/-- Filter clauses of the built search body: exact-match term, inclusive
range, and term-set clauses. -/
inductive FilterClause where
  | term (field value : String) : FilterClause
  | rangeClause (field : String) (gte lte : Option String) : FilterClause
  | termsClause (field : String) (values : List String) : FilterClause
deriving DecidableEq

/-- Embeds the filter_queries construction of SearchView.get (views.py lines
323-352), appending clauses in source order for each truthy parameter. -/
def build_filter_queries (category language media_type duration_min duration_max
    publish_date_from publish_date_to tags : Option String) : List FilterClause :=
  (if truthyOpt category then [FilterClause.term "category" (category.getD "")]
   else []) ++
  (if truthyOpt language then [FilterClause.term "language" (language.getD "")]
   else []) ++
  (if truthyOpt media_type then
    [FilterClause.term "media_type" (media_type.getD "")]
   else []) ++
  (if truthyOpt duration_min ∨ truthyOpt duration_max then
    [FilterClause.rangeClause "duration"
      (if truthyOpt duration_min then some (duration_min.getD "") else none)
      (if truthyOpt duration_max then some (duration_max.getD "") else none)]
   else []) ++
  (if truthyOpt publish_date_from ∨ truthyOpt publish_date_to then
    [FilterClause.rangeClause "publish_date"
      (if truthyOpt publish_date_from then some (publish_date_from.getD "")
       else none)
      (if truthyOpt publish_date_to then some (publish_date_to.getD "")
       else none)]
   else []) ++
  (if truthyOpt tags then
    [FilterClause.termsClause "metadata.tags"
      (((tags.getD "").splitOn ",").map String.trim)]
   else [])

/-- Filter clauses built for a request, in source order. -/
def requestFilters (req : Request) : List FilterClause :=
  build_filter_queries req.category req.language req.media_type
    req.duration_min req.duration_max req.publish_date_from
    req.publish_date_to req.tags

/-- Number of exact-match term clauses on a given field. -/
def countTermFor (field : String) (fs : List FilterClause) : Nat :=
  (fs.filter fun c =>
    match c with
    | FilterClause.term f _ => f == field
    | _ => false).length

/-- Number of range clauses on a given field. -/
def countRangeFor (field : String) (fs : List FilterClause) : Nat :=
  (fs.filter fun c =>
    match c with
    | FilterClause.rangeClause f _ _ => f == field
    | _ => false).length

/-- Number of term-set clauses on a given field. -/
def countTermsFor (field : String) (fs : List FilterClause) : Nat :=
  (fs.filter fun c =>
    match c with
    | FilterClause.termsClause f _ => f == field
    | _ => false).length

/-- The search body sent to the engine: free-text query with fuzziness flag,
filter clauses, pagination window, sort specification and highlight flag (the
weighted multi_match field list, the secondary created_at tie-break and the
aggregation block are fixed constants in the source and are elided here). -/
structure SearchBody where
  query : String
  fuzzy : Bool
  filters : List FilterClause
  fromOffset : Int
  size : Int
  sort_by : String
  sort_order : String
  highlight : Bool
deriving DecidableEq

/-- One engine hit: source document as a string-keyed record, relevance score
(carried through untouched, numeric type irrelevant here) and highlight fragments. -/
structure Hit where
  source : List (String × String)
  score : Option Int
  highlight : List (String × List String)
deriving DecidableEq

/-- Engine search response: hits, total hit count, timing and facet counts. -/
structure EngineResponse where
  hits : List Hit
  total : Nat
  took : Nat
  aggregations : List (String × Nat)
deriving DecidableEq

/-- Lookup in a string-keyed record, modelling dict.get. -/
def pyGet (d : List (String × String)) (k : String) : Option String :=
  (d.find? fun kv => kv.1 == k).map fun kv => kv.2

/-- One reshaped result record, as built per hit in views.py lines 421-437. -/
structure HitResult where
  id : Option String
  title : Option String
  description : Option String
  category : Option String
  language : Option String
  duration : Option String
  publish_date : Option String
  media_type : Option String
  media_url : Option String
  thumbnail_url : Option String
  metadata : Option String
  created_at : Option String
  updated_at : Option String
  score : Option Int
  highlights : List (String × List String)
deriving DecidableEq

/-- Reshape an engine hit into a flat result record. -/
def reshape_hit (h : Hit) : HitResult :=
  { id := pyGet h.source "id", title := pyGet h.source "title",
    description := pyGet h.source "description",
    category := pyGet h.source "category", language := pyGet h.source "language",
    duration := pyGet h.source "duration",
    publish_date := pyGet h.source "publish_date",
    media_type := pyGet h.source "media_type",
    media_url := pyGet h.source "media_url",
    thumbnail_url := pyGet h.source "thumbnail_url",
    metadata := pyGet h.source "metadata",
    created_at := pyGet h.source "created_at",
    updated_at := pyGet h.source "updated_at",
    score := h.score, highlights := h.highlight }

/-- Body of a 200 response of SearchView.get (the filters_applied echo simply
repeats request parameters and is elided). -/
structure SearchOkBody where
  query : String
  total : Nat
  page : Int
  page_size : Int
  total_pages : Int
  results : List HitResult
  took : Nat
  aggregations : List (String × Nat)
deriving DecidableEq

/-- Outcome of SearchView.get: 200 with body, 400 with error message, or 500
with error and details. -/
inductive SearchHttpResult where
  | ok (body : SearchOkBody) : SearchHttpResult
  | badRequest (error : String) : SearchHttpResult
  | serverError (error details : String) : SearchHttpResult
deriving DecidableEq

/-- HTTP status code of an outcome. -/
def statusOf : SearchHttpResult → Nat
  | SearchHttpResult.ok _ => 200
  | SearchHttpResult.badRequest _ => 400
  | SearchHttpResult.serverError _ _ => 500

/-- total_pages of a 200 response, none otherwise. -/
def totalPagesOf : SearchHttpResult → Option Int
  | SearchHttpResult.ok b => some b.total_pages
  | _ => none

/-- Embeds SearchView.get.  The engine oracle stands for client.search; the
second component of the result lists the bodies actually sent to the engine.
The steps mirror the source order: the q guard returns 400 before anything
else; inside the try block the int() parses of page and page_size, the engine
call, and the total_pages floor division can each raise, and any exception is
answered by the blanket handler as a 500. -/
def SearchView_get (engine : SearchBody → Except String EngineResponse)
    (req : Request) : SearchHttpResult × List SearchBody :=
  let query := req.q.getD ""
  if query = "" then
    (SearchHttpResult.badRequest "Query parameter q is required", [])
  else
    match parseParamInt req.page 1 with
    | none =>
      (SearchHttpResult.serverError "Search failed" "invalid literal for int",
       [])
    | some page =>
      match parseParamInt req.page_size 20 with
      | none =>
        (SearchHttpResult.serverError "Search failed" "invalid literal for int",
         [])
      | some ps =>
        let page_size := min ps 100
        let from_size := (page - 1) * page_size
        let filters := requestFilters req
        let body : SearchBody :=
          { query := query,
            fuzzy := (req.fuzzy.getD "true").toLower == "true",
            filters := filters,
            fromOffset := from_size,
            size := page_size,
            sort_by := req.sort_by.getD "_score",
            sort_order := req.sort_order.getD "desc",
            highlight := (req.highlight.getD "true").toLower == "true" }
        match engine body with
        | Except.error e => (SearchHttpResult.serverError "Search failed" e, [body])
        | Except.ok resp =>
          if page_size = 0 then
            (SearchHttpResult.serverError "Search failed"
              "integer division or modulo by zero", [body])
          else
            (SearchHttpResult.ok
              { query := query,
                total := resp.total,
                page := page,
                page_size := page_size,
                total_pages := Int.fdiv ((resp.total : Int) + page_size - 1) page_size,
                results := resp.hits.map reshape_hit,
                took := resp.took,
                aggregations := resp.aggregations }, [body])

/-- A concrete request: q coffee, page 2, page_size 10, all else absent. -/
def coffeePage2Request : Request :=
  { emptyRequest with
      q := some "coffee"
      page := some "2"
      page_size := some "10" }

/-- A concrete engine oracle answering every body with 25 total hits. -/
def engine25 : SearchBody → Except String EngineResponse :=
  fun _ => Except.ok (EngineResponse.mk [] 25 5 [])

theorem dispatch_apply {α : Type} (st : IndexState α) (e : ChangeEvent α) (i : Nat) :
    dispatch st e i =
      (if e.program_id = i then
        match classify e.op with
        | some OpKind.upsertKind => some e.payload
        | some OpKind.deleteKind => none
        | none => st i
      else st i) := by
  unfold dispatch classify handle_upsert handle_delete
  by_cases h1 : e.op = "upsert" ∨ e.op = "create" ∨ e.op = "update"
  · simp only [if_pos h1]
    by_cases h2 : e.program_id = i
    · subst h2; simp
    · have : ¬ i = e.program_id := fun h => h2 h.symm
      simp [this, h2]
  · simp only [if_neg h1]
    by_cases h2 : e.op = "delete"
    · simp only [if_pos h2]
      by_cases h3 : e.program_id = i
      · subst h3; simp
      · have : ¬ i = e.program_id := fun h => h3 h.symm
        simp [this, h3]
    · simp [h1, h2]

theorem run_consumer_apply {α : Type} (events : List (ChangeEvent α)) :
    ∀ (st : IndexState α) (i : Nat),
      run_consumer st events i = applyTrace i (st i) events := by
  induction events with
  | nil => intro st i; rfl
  | cons e es ih =>
    intro st i
    show run_consumer (dispatch st e) es i = applyTrace i (st i) (e :: es)
    rw [ih (dispatch st e) i]
    unfold applyTrace
    rw [List.foldl_cons]
    rw [dispatch_apply st e i]

theorem applyTrace_ne_none {α : Type} (i : Nat) (events : List (ChangeEvent α)) :
    ∀ (v : Option α) (acc : Option OpKind),
      applyTrace i v events ≠ none →
      lastFrom i acc events = some OpKind.upsertKind ∨
        (lastFrom i acc events = acc ∧ applyTrace i v events = v) := by
  induction events with
  | nil => intro v acc _; exact Or.inr ⟨rfl, rfl⟩
  | cons e es ih =>
    intro v acc hne
    have hstep :
        applyTrace i v (e :: es) =
          applyTrace i
            (if e.program_id = i then
              match classify e.op with
              | some OpKind.upsertKind => some e.payload
              | some OpKind.deleteKind => none
              | none => v
            else v) es := by
      unfold applyTrace; rw [List.foldl_cons]
    have hlast :
        lastFrom i acc (e :: es) =
          lastFrom i
            (if e.program_id = i then
              match classify e.op with
              | some k => some k
              | none => acc
            else acc) es := by
      unfold lastFrom; rw [List.foldl_cons]
    by_cases hid : e.program_id = i
    · cases hcl : classify e.op with
      | none =>
        rw [hstep, hlast]
        simp only [hid, if_pos, hcl]
        exact ih v acc (by rw [hstep] at hne; simpa [hid, hcl] using hne)
      | some k =>
        cases k with
        | upsertKind =>
          rw [hstep, hlast]
          simp only [hid, if_pos, hcl]
          have hne2 : applyTrace i (some e.payload) es ≠ none := by
            rw [hstep] at hne; simpa [hid, hcl] using hne
          rcases ih (some e.payload) (some OpKind.upsertKind) hne2 with h | h
          · exact Or.inl h
          · exact Or.inl h.1
        | deleteKind =>
          rw [hstep, hlast]
          simp only [hid, if_pos, hcl]
          have hne2 : applyTrace i (none : Option α) es ≠ none := by
            rw [hstep] at hne; simpa [hid, hcl] using hne
          rcases ih (none : Option α) (some OpKind.deleteKind) hne2 with h | h
          · exact Or.inl h
          · exact absurd h.2 hne2
    · rw [hstep, hlast]
      simp only [hid, if_neg, if_false]
      exact ih v acc (by rw [hstep] at hne; simpa [hid] using hne)

/-- C1: over any sequence of change events applied by the dispatch loop from
an empty index, every id holding a document has an upsert-kind event as its
last applied event; in particular no id whose last applied event was a delete
holds a document. -/
theorem C1_doc_implies_last_upsert {α : Type} (events : List (ChangeEvent α))
    (i : Nat) (h : run_consumer emptyIndex events i ≠ none) :
    lastApplied i events = some OpKind.upsertKind := by
  rw [run_consumer_apply] at h
  rcases applyTrace_ne_none i events (emptyIndex i) none h with h1 | h1
  · exact h1
  · exact absurd h1.2 h

/-- C1 witness: a single upsert event leaves a document for its id, and the
theorem applies to it. -/
theorem C1_doc_implies_last_upsert_witness :
    lastApplied 7 [ChangeEvent.mk "upsert" 7 (3 : Nat)] = some OpKind.upsertKind :=
  C1_doc_implies_last_upsert [ChangeEvent.mk "upsert" 7 (3 : Nat)] 7 (by decide)

/-- C2 counterexample: the operator command, run while an index with one
mapping already exists and the mapping file holds a different mapping, does
not leave the existing index unchanged — it replaces it with the mapping
held in the file (Command.handle deletes and recreates). -/
theorem C2_command_replaces_existing :
    (command_handle (some [("id", "integer")])
      (some ([] : List (String × String)))).1 ≠ some [] := by
  decide

/-- C2 amended: the schema operation run at consumer startup checks existence
and creates with the mapping only when the index is absent, never touching an
existing index; the operator command, by contrast, deletes and recreates an
existing index from the mapping file whenever that file is present, and
leaves everything unchanged only when the mapping file is missing. -/
theorem C2_schema_ops_behaviour (m fm : List (String × String))
    (ix : Option (List (String × String))) :
    create_index_if_not_exists (some m) = (some m, []) ∧
    create_index_if_not_exists none =
      (some programs_mapping, [IndexAction.createIndex programs_mapping]) ∧
    command_handle (some fm) (some m) =
      (some fm, [IndexAction.deleteIndex, IndexAction.createIndex fm]) ∧
    command_handle none ix = (ix, []) :=
  ⟨rfl, rfl, rfl, rfl⟩

/-- C3: dispatching an upsert for an id followed by a delete for the same id
leaves that id with no document, never with the upserted payload. -/
theorem C3_upsert_then_delete_not_found {α : Type} (st : IndexState α)
    (i : Nat) (a b : α) :
    run_consumer st [ChangeEvent.mk "upsert" i a, ChangeEvent.mk "delete" i b] i
      = none := by
  show dispatch (dispatch st (ChangeEvent.mk "upsert" i a))
    (ChangeEvent.mk "delete" i b) i = none
  rw [dispatch_apply]
  simp [classify]

/-- C6: a message whose op tag is none of upsert, create, update, delete
leaves the index unchanged and every subsequent message is still processed:
running the rest of the stream from the same state. -/
theorem C6_unknown_op_skipped {α : Type} (st : IndexState α) (e : ChangeEvent α)
    (rest : List (ChangeEvent α)) (h1 : e.op ≠ "upsert") (h2 : e.op ≠ "create")
    (h3 : e.op ≠ "update") (h4 : e.op ≠ "delete") :
    dispatch st e = st ∧ run_consumer st (e :: rest) = run_consumer st rest := by
  have hd : dispatch st e = st := by
    unfold dispatch
    simp [h1, h2, h3, h4]
  refine ⟨hd, ?_⟩
  show run_consumer (dispatch st e) rest = run_consumer st rest
  rw [hd]

/-- C6 witness: an event tagged noop is dropped and a later upsert is still
applied. -/
theorem C6_unknown_op_skipped_witness :
    dispatch (emptyIndex : IndexState Nat) (ChangeEvent.mk "noop" 1 0) = emptyIndex ∧
    run_consumer (emptyIndex : IndexState Nat)
        [ChangeEvent.mk "noop" 1 0, ChangeEvent.mk "upsert" 2 5] =
      run_consumer emptyIndex [ChangeEvent.mk "upsert" 2 5] :=
  C6_unknown_op_skipped emptyIndex (ChangeEvent.mk "noop" 1 0)
    [ChangeEvent.mk "upsert" 2 5] (by decide) (by decide) (by decide) (by decide)

/-- C7: deleting an id that holds no document leaves the index unchanged and
does not halt consumption — the remaining stream runs from the same state. -/
theorem C7_delete_absent_id {α : Type} (st : IndexState α) (i : Nat) (p : α)
    (rest : List (ChangeEvent α)) (h : st i = none) :
    handle_delete st i = st ∧
    run_consumer st (ChangeEvent.mk "delete" i p :: rest) =
      run_consumer st rest := by
  have hd : handle_delete st i = st := by
    funext j
    unfold handle_delete
    by_cases hj : j = i
    · subst hj; rw [if_pos rfl, h]
    · rw [if_neg hj]
  have hdisp : dispatch st (ChangeEvent.mk "delete" i p) = st := by
    funext j
    rw [dispatch_apply]
    by_cases hj : i = j
    · subst hj
      simp only [if_pos rfl, show classify "delete" = some OpKind.deleteKind from rfl]
      exact h.symm
    · rw [if_neg hj]
  refine ⟨hd, ?_⟩
  show run_consumer (dispatch st (ChangeEvent.mk "delete" i p)) rest =
    run_consumer st rest
  rw [hdisp]

/-- C7 witness: deleting id 3 from the empty index is a no-op and the loop
continues. -/
theorem C7_delete_absent_id_witness :
    handle_delete (emptyIndex : IndexState Nat) 3 = emptyIndex ∧
    run_consumer (emptyIndex : IndexState Nat) [ChangeEvent.mk "delete" 3 0] =
      run_consumer emptyIndex [] :=
  C7_delete_absent_id emptyIndex 3 0 [] rfl

/-- C8: applying the same upsert twice through the upsert handler of the consumer
yields the same index state as applying it once. -/
theorem C8_upsert_idempotent {α : Type} (st : IndexState α) (i : Nat) (p : α) :
    handle_upsert (handle_upsert st i p) i p = handle_upsert st i p := by
  funext j
  unfold handle_upsert
  by_cases hj : j = i <;> simp [hj]

/-- C4: a search request whose q parameter is missing or empty is answered
with the 400 response and an error message, and no body is ever sent to the
engine. -/
theorem C4_empty_query_rejected
    (engine : SearchBody → Except String EngineResponse) (req : Request)
    (h : req.q.getD "" = "") :
    SearchView_get engine req =
      (SearchHttpResult.badRequest "Query parameter q is required", []) ∧
    statusOf (SearchView_get engine req).1 = 400 := by
  have hmain : SearchView_get engine req =
      (SearchHttpResult.badRequest "Query parameter q is required", []) := by
    unfold SearchView_get
    rw [h]
    simp
  exact ⟨hmain, by rw [hmain]; rfl⟩

/-- C4 witness: a request with no q at all is rejected with 400 and zero
engine calls, even with a healthy engine. -/
theorem C4_empty_query_rejected_witness :
    SearchView_get (fun _ => Except.error "unreachable") emptyRequest =
      (SearchHttpResult.badRequest "Query parameter q is required", []) ∧
    statusOf (SearchView_get (fun _ => Except.error "unreachable")
      emptyRequest).1 = 400 :=
  C4_empty_query_rejected (fun _ => Except.error "unreachable") emptyRequest rfl

theorem filterLen_append (p : FilterClause → Bool) (a b : List FilterClause) :
    ((a ++ b).filter p).length = (a.filter p).length + (b.filter p).length := by
  rw [List.filter_append, List.length_append]

theorem filterLen_ite (p : FilterClause → Bool) (c : Prop) [Decidable c]
    (x : FilterClause) :
    (((if c then [x] else []) : List FilterClause).filter p).length =
      if c ∧ p x = true then 1 else 0 := by
  by_cases hc : c <;> by_cases hp : p x = true <;> simp [hc, hp]

theorem lengthIte (c : Prop) [Decidable c] (x : FilterClause) :
    (((if c then [x] else []) : List FilterClause)).length =
      if c then 1 else 0 := by
  by_cases hc : c <;> simp [hc]

/-- C9: the built query holds exactly one exact-match term clause for each of
category, language and media_type that is provided (non-empty), exactly one
range clause per provided duration or publish-date bound pair, exactly one
term-set clause when tags is provided, nothing at all for absent parameters,
and in particular category Technology with language English yields exactly
the two term clauses for those fields. -/
theorem C9_filter_clause_counts (req : Request) :
    countTermFor "category" (requestFilters req) =
      (if truthyOpt req.category then 1 else 0) ∧
    countTermFor "language" (requestFilters req) =
      (if truthyOpt req.language then 1 else 0) ∧
    countTermFor "media_type" (requestFilters req) =
      (if truthyOpt req.media_type then 1 else 0) ∧
    countRangeFor "duration" (requestFilters req) =
      (if truthyOpt req.duration_min ∨ truthyOpt req.duration_max then 1
       else 0) ∧
    countRangeFor "publish_date" (requestFilters req) =
      (if truthyOpt req.publish_date_from ∨ truthyOpt req.publish_date_to
       then 1 else 0) ∧
    countTermsFor "metadata.tags" (requestFilters req) =
      (if truthyOpt req.tags then 1 else 0) ∧
    (requestFilters req).length =
      (if truthyOpt req.category then 1 else 0) +
      (if truthyOpt req.language then 1 else 0) +
      (if truthyOpt req.media_type then 1 else 0) +
      (if truthyOpt req.duration_min ∨ truthyOpt req.duration_max then 1
       else 0) +
      (if truthyOpt req.publish_date_from ∨ truthyOpt req.publish_date_to
       then 1 else 0) +
      (if truthyOpt req.tags then 1 else 0) ∧
    build_filter_queries (some "Technology") (some "English") none none none
        none none none =
      [FilterClause.term "category" "Technology",
       FilterClause.term "language" "English"] := by
  refine ⟨?_, ?_, ?_, ?_, ?_, ?_, ?_, ?_⟩
  · unfold countTermFor requestFilters build_filter_queries
    simp only [filterLen_append, filterLen_ite]
    simp
  · unfold countTermFor requestFilters build_filter_queries
    simp only [filterLen_append, filterLen_ite]
    simp
  · unfold countTermFor requestFilters build_filter_queries
    simp only [filterLen_append, filterLen_ite]
    simp
  · unfold countRangeFor requestFilters build_filter_queries
    simp only [filterLen_append, filterLen_ite]
    simp
  · unfold countRangeFor requestFilters build_filter_queries
    simp only [filterLen_append, filterLen_ite]
    simp
  · unfold countTermsFor requestFilters build_filter_queries
    simp only [filterLen_append, filterLen_ite]
    simp
  · unfold requestFilters build_filter_queries
    simp only [List.length_append, lengthIte]
  · rfl

/-- C5: for a valid request (non-empty q, page and page_size parsing with
page at least 1 and page_size at least 1) against a responsive engine, the
one body sent to the engine carries offset (page - 1) times the clamped page
size, its window is the page size clamped to 100, and total_pages of the
200 response is the ceiling of total hits over the clamped page size. -/
theorem C5_pagination (engine : SearchBody → Except String EngineResponse)
    (req : Request) (p s : Int) (resp : EngineResponse)
    (hq : ¬ req.q.getD "" = "")
    (hp : parseParamInt req.page 1 = some p)
    (hs : parseParamInt req.page_size 20 = some s)
    (_hp1 : 1 ≤ p) (hs1 : 1 ≤ s)
    (heng : ∀ b, engine b = Except.ok resp) :
    (SearchView_get engine req).2.map SearchBody.fromOffset =
      [(p - 1) * min s 100] ∧
    (SearchView_get engine req).2.map SearchBody.size = [min s 100] ∧
    totalPagesOf (SearchView_get engine req).1 =
      some ((resp.total + (min s 100).toNat - 1) / (min s 100).toNat : Nat) := by
  have hS : (1 : Int) ≤ min s 100 := le_min hs1 (by norm_num)
  have hne : ¬ (min s 100 = 0) := by omega
  have harith : Int.fdiv ((resp.total : Int) + min s 100 - 1) (min s 100) =
      ((resp.total + (min s 100).toNat - 1) / (min s 100).toNat : Nat) := by
    have hS0 : (0 : Int) ≤ min s 100 := le_trans zero_le_one hS
    rw [Int.fdiv_eq_ediv _ hS0]
    have hSt : (((min s 100).toNat : Int)) = min s 100 := Int.toNat_of_nonneg hS0
    have hcast : (resp.total : Int) + min s 100 - 1 =
        ((resp.total + (min s 100).toNat - 1 : Nat) : Int) := by
      have h1 : 1 ≤ resp.total + (min s 100).toNat := by omega
      push_cast [h1]
      omega
    rw [hcast, ← hSt]
    exact (Int.ofNat_ediv _ _).symm
  refine ⟨?_, ?_, ?_⟩
  · simp only [SearchView_get, hp, hs, heng]
    simp [hq, hne]
  · simp only [SearchView_get, hp, hs, heng]
    simp [hq, hne]
  · simp only [SearchView_get, hp, hs, heng]
    simp [hq, hne, totalPagesOf, harith]

/-- C5 witness: q coffee, page 2, page_size 10 against an engine reporting 25
total hits: the engine receives offset 10 with window 10 and the response
reports 3 total pages. -/
theorem C5_pagination_witness :
    (SearchView_get engine25 coffeePage2Request).2.map SearchBody.fromOffset =
      [(10 : Int)] ∧
    (SearchView_get engine25 coffeePage2Request).2.map SearchBody.size =
      [(10 : Int)] ∧
    totalPagesOf (SearchView_get engine25 coffeePage2Request).1 =
      some (3 : Int) := by
  obtain ⟨h1, h2, h3⟩ := C5_pagination engine25 coffeePage2Request
    2 10 (EngineResponse.mk [] 25 5 [])
    (by decide) (by decide) (by decide) (by decide) (by decide)
    (fun _ => rfl)
  refine ⟨?_, ?_, ?_⟩
  · rw [h1]; norm_num
  · rw [h2]; norm_num
  · rw [h3]; norm_num

/-- C10: a request with non-empty q and page_size 0 is answered 500, not 400:
the total-pages floor division divides by the unvalidated page size inside the
blanket try handler; a non-integer page or page_size likewise surfaces as a
500 from the int() parse inside the same handler. -/
theorem C10_unvalidated_page_size_500
    (engine : SearchBody → Except String EngineResponse) (req : Request)
    (hq : ¬ req.q.getD "" = "")
    (h : req.page_size = some "0" ∨
      (∃ t, req.page_size = some t ∧ pyInt t = none) ∨
      (∃ t, req.page = some t ∧ pyInt t = none)) :
    statusOf (SearchView_get engine req).1 = 500 := by
  rcases hpg : parseParamInt req.page 1 with _ | p
  · simp only [SearchView_get, hpg]
    simp [hq, statusOf]
  · rcases hps : parseParamInt req.page_size 20 with _ | s
    · simp only [SearchView_get, hpg, hps]
      simp [hq, statusOf]
    · have hs0 : s = 0 := by
        rcases h with h0 | ⟨t, ht, hn⟩ | ⟨t, ht, hn⟩
        · rw [h0] at hps
          have hz : pyInt "0" = some 0 := by decide
          rw [show parseParamInt (some "0") 20 = pyInt "0" from rfl, hz] at hps
          exact (Option.some_inj.mp hps).symm
        · rw [ht] at hps
          rw [show parseParamInt (some t) 20 = pyInt t from rfl, hn] at hps
          exact absurd hps (by simp)
        · rw [ht] at hpg
          rw [show parseParamInt (some t) 1 = pyInt t from rfl, hn] at hpg
          exact absurd hpg (by simp)
      subst hs0
      simp only [SearchView_get, hpg, hps]
      rcases heng : engine
        { query := req.q.getD "",
          fuzzy := (req.fuzzy.getD "true").toLower == "true",
          filters := requestFilters req,
          fromOffset := (p - 1) * min 0 100,
          size := min 0 100,
          sort_by := req.sort_by.getD "_score",
          sort_order := req.sort_order.getD "desc",
          highlight := (req.highlight.getD "true").toLower == "true" }
        with e | resp
      · simp [hq, heng, statusOf]
      · simp [hq, heng, statusOf]

/-- C10 witness: q present, page_size 0, engine healthy: the status is 500. -/
theorem C10_unvalidated_page_size_500_witness :
    statusOf (SearchView_get engine25
      { emptyRequest with
          q := some "x"
          page_size := some "0" }).1 = 500 :=
  C10_unvalidated_page_size_500 engine25
    { emptyRequest with
        q := some "x"
        page_size := some "0" }
    (by decide) (Or.inl rfl)

end ThumanyaCMS
